import Mathlib

/-!
Verification of the reimagine-future transformation-and-sharing pipeline.

Client side (src/src/App.tsx): the `App` component holds the TransformSession
state (`selectedJob`, `image`, `resultImage`, `shareId`, `isSharing`,
`isProcessing`, `error`) and the operations `handleFileChange`/`onDrop`
(setSource), `setSelectedJob` (selectTheme), `handleReimagine` (submit/retry,
with the chained auto-share), and `handleShare` (manual share).

Server side (src/unnamed/part_000): an express server with a sqlite-backed
share store, `POST /api/share` (create) and `GET /share/:id` (read).

Each handler is embedded as a pure function from the state before a completed
invocation to the state after it: the React setters of one invocation are
batched into a single record update, so `setIsProcessing(true)` at entry
followed by `setIsProcessing(false)` in the `finally` block nets to
`isProcessing := false` on every path that passes the `if (!image) return`
guard.  JavaScript truthiness of a `string | null | undefined` value
(`if (!image)`, `if (shareData.id)`) is embedded as `truthy`, false exactly
on absence and on the empty string.
-/

namespace ReimagineFuture

/-- Truthiness of a JS `string | null | undefined` value: `none` and the empty
string are falsy, every other string is truthy.  Models `!image`,
`!resultImage`, `shareData.id ? ...`, `!row` style checks in the source. -/
def truthy : Option String → Bool
  | none => false
  | some s => decide (s ≠ "")

/-- `part.inlineData` of a provider response part: base64 `data` plus the
MIME type the provider reports (`@google/genai` inline data). -/
structure InlineData where
  data : String
  mimeType : String
deriving Repr, DecidableEq

/-- One part of `response.candidates[0].content.parts`; only the presence or
absence of `inlineData` is inspected by `handleReimagine`. -/
structure Part where
  inlineData : Option InlineData
deriving Repr, DecidableEq

/-- Outcome of the `ai.models.generateContent` call as `handleReimagine`
observes it: either the awaited call throws (message `m`), or it returns a
response whose `candidates?.[0]?.content?.parts` chain is absent (`responds
none`) or is a list of parts (`responds (some parts)`). -/
inductive ProviderOutcome where
  | throws (m : String)
  | responds (parts : Option (List Part))
deriving Repr, DecidableEq

/-- Outcome of one `fetch('/api/share', ...)` + `json()` round as the client
observes it: the awaited chain throws, or it yields a body whose `id` field
is absent (`responds none`) or a string (`responds (some i)`). -/
inductive ShareOutcome where
  | throws
  | responds (id : Option String)
deriving Repr, DecidableEq

/-- The TransformSession state: the seven `useState` cells of `App`.
`selectedJob` is the index into the fixed `OCCUPATIONS` catalog. -/
structure SessionState where
  selectedJob : Nat
  image : Option String
  resultImage : Option String
  shareId : Option String
  isSharing : Bool
  isProcessing : Bool
  error : Option String
deriving Repr, DecidableEq

/-- The page-load state: `useState(OCCUPATIONS[0])`, `useState(null)` for the
images, shareId and error, `useState(false)` for the flags. -/
def initialState : SessionState :=
  { selectedJob := 0
    image := none
    resultImage := none
    shareId := none
    isSharing := false
    isProcessing := false
    error := none }

/-- `handleFileChange` / `onDrop` after the `FileReader` completes:
`setImage(reader.result)`, `setResultImage(null)`, `setError(null)`.
No other cell is written (in particular `shareId` is left as it was). -/
def setSource (s : SessionState) (img : String) : SessionState :=
  { s with image := some img, resultImage := none, error := none }

/-- `setSelectedJob(job)`: replaces the selected occupation, nothing else. -/
def selectTheme (s : SessionState) (j : Nat) : SessionState :=
  { s with selectedJob := j }

/-- The message minted by `throw new Error("The AI didn\x27t return an image.
Please try again.")` when no inline-image part is found. -/
def noImageMsg : String := "The AI didn\x27t return an image. Please try again."

/-- The generic fallback of the catch block: `err.message || "Something went
wrong during the transformation."`. -/
def fallbackMsg : String := "Something went wrong during the transformation."

/-- `err.message || fallbackMsg`: an empty (falsy) message is replaced by the
generic fallback. -/
def errMsg (m : String) : String := if m = "" then fallbackMsg else m

/-- The loop of `handleReimagine` over `response.candidates[0].content.parts`:
take the first part carrying `inlineData` (the loop `break`s there). -/
def findInline : List Part → Option InlineData
  | [] => none
  | p :: ps =>
    match p.inlineData with
    | some d => some d
    | none => findInline ps

/-- `if (shareData.id) setShareId(shareData.id)` applied to a share-call
outcome: a thrown fetch/json is swallowed by the surrounding catch, and the
id is stored only when truthy.  Shared by the chained auto-share inside
`handleReimagine` and by `handleShare`. -/
def applyShare (s : SessionState) (so : ShareOutcome) : SessionState :=
  match so with
  | .throws => s
  | .responds i => if truthy i then { s with shareId := i } else s

/-- `handleReimagine`, one completed invocation.  Guard: `if (!image) return`.
Then `setIsProcessing(true); setError(null)`; on an inline-image part,
`setResultImage("data:image/png;base64," + part.inlineData.data)` followed by
the chained auto-share whose own failure is swallowed; if no part carried
inline data (or the candidates/parts chain was absent) the handler throws
`noImageMsg`; any throw is caught and stored via `errMsg`; the `finally`
block resets `isProcessing`.  `po` is the provider-call outcome and `so` the
auto-share outcome (consulted only when a result image was found). -/
def handleReimagine (s : SessionState) (po : ProviderOutcome) (so : ShareOutcome) :
    SessionState :=
  if truthy s.image then
    match po with
    | .throws m =>
      { s with isProcessing := false, error := some (errMsg m) }
    | .responds none =>
      { s with isProcessing := false, error := some noImageMsg }
    | .responds (some parts) =>
      match findInline parts with
      | none =>
        { s with isProcessing := false, error := some noImageMsg }
      | some d =>
        let s2 : SessionState :=
          { s with error := none
                   resultImage := some ("data:image/png;base64," ++ d.data) }
        { applyShare s2 so with isProcessing := false }
  else s

/-- Number of provider (`generateContent`) calls one `handleReimagine`
invocation issues: one whenever the `if (!image) return` guard passes, zero
otherwise.  There is no other guard in the function. -/
def submitProviderCalls (s : SessionState) : Nat :=
  if truthy s.image then 1 else 0

/-- Number of `/api/share` POSTs one `handleReimagine` invocation issues: one
exactly when the guard passes and an inline-image part is found. -/
def submitShareCalls (s : SessionState) (po : ProviderOutcome) : Nat :=
  if truthy s.image then
    match po with
    | .throws _ => 0
    | .responds none => 0
    | .responds (some parts) =>
      match findInline parts with
      | none => 0
      | some _ => 1
  else 0

/-- `handleShare`, one completed invocation: guard `if (!resultImage) return`,
then `setIsSharing(true)`, the share POST with its catch-and-log, and
`finally setIsSharing(false)`. -/
def handleShare (s : SessionState) (so : ShareOutcome) : SessionState :=
  if truthy s.resultImage then
    { applyShare s so with isSharing := false }
  else s

/-- One completed user-visible operation on the session. -/
inductive Op where
  | setSource (img : String)
  | selectTheme (j : Nat)
  | submit (po : ProviderOutcome) (so : ShareOutcome)
  | manualShare (so : ShareOutcome)
deriving Repr, DecidableEq

/-- Effect of one completed operation on the session state. -/
def step (s : SessionState) : Op → SessionState
  | .setSource img => setSource s img
  | .selectTheme j => selectTheme s j
  | .submit po so => handleReimagine s po so
  | .manualShare so => handleShare s so

/-- Run a sequence of completed operations from a state. -/
def run (s : SessionState) (ops : List Op) : SessionState :=
  ops.foldl step s

/-- States reachable from the page-load state by completed operations. -/
def Reachable (s : SessionState) : Prop :=
  ∃ ops : List Op, run initialState ops = s

/-- A share-call outcome that populates `shareId`: the call neither threw nor
returned a falsy id. -/
def goodShare : ShareOutcome → Bool
  | .throws => false
  | .responds i => truthy i

/-- An operation that carries a successful share outcome. -/
def opWithGoodShare : Op → Bool
  | .submit _ so => goodShare so
  | .manualShare so => goodShare so
  | _ => false

/-- Trace predicate: every `submit` in the sequence is invoked from a state
with no `resultImage` (i.e. never re-submitted from `Ready`). -/
def submitsGuarded : SessionState → List Op → Bool
  | _, [] => true
  | s, op :: ops =>
    (match op with
     | .submit _ _ => s.resultImage.isNone
     | _ => true) && submitsGuarded (step s op) ops

/-! ## Server-side share store (src/unnamed/part_000) -/

/-- The `shares` sqlite table: insertion-ordered `(id, image)` rows (the
`created_at` default column plays no role in any lookup). -/
abbrev Store := List (String × String)

/-- `INSERT INTO shares (id, image) VALUES (?, ?)`. -/
def storePut (st : Store) (id img : String) : Store := (id, img) :: st

/-- `SELECT image FROM shares WHERE id = ?`: exact-match lookup on the
primary key. -/
def storeGet : Store → String → Option String
  | [], _ => none
  | (k, v) :: rest, id => if k = id then some v else storeGet rest id

/-- Result of `POST /api/share`: 400 with `{error}` or 200 with `{id}`. -/
inductive CreateResult where
  | badRequest
  | ok (id : String)
deriving Repr, DecidableEq

/-- `POST /api/share`: destructure `image` from the body; `if (!image)`
respond 400 with no write; otherwise insert under a fresh uuid `fid` and
respond `{id: fid}`.  Returns the store after the request and the response. -/
def postShare (st : Store) (body : Option String) (fid : String) :
    Store × CreateResult :=
  match body with
  | none => (st, .badRequest)
  | some img =>
    if img = "" then (st, .badRequest)
    else (storePut st fid img, .ok fid)

/-- Result of `GET /share/:id`: 404, or the viewer page embedding the stored
payload (the page interpolates `row.image` verbatim into `src` and `href`). -/
inductive ReadResult where
  | notFound
  | page (image : String)
deriving Repr, DecidableEq

/-- `GET /share/:id`: exact-match lookup; `if (!row)` respond 404, else
render the viewer around the stored payload, unmodified. -/
def getShare (st : Store) (id : String) : ReadResult :=
  match storeGet st id with
  | none => .notFound
  | some img => .page img

/-! ## Concrete fixtures used by counterexamples and witnesses -/

/-- A provider response part carrying inline data (non-png MIME reported). -/
def partD : Part := { inlineData := some { data := "QUJD", mimeType := "image/webp" } }

/-- A provider outcome with exactly one inline-image part. -/
def okProvider : ProviderOutcome := .responds (some [partD])

/-- A share outcome that returns id `tok123`. -/
def okShare : ShareOutcome := .responds (some "tok123")

/-- setSource, then a successful submit whose auto-share succeeded, then a
second setSource. -/
def opsStaleShare : List Op :=
  [.setSource "data:image/jpeg;base64,AAA",
   .submit okProvider okShare,
   .setSource "data:image/jpeg;base64,BBB"]

/-- setSource, a successful submit, then a failing re-submit from `Ready`. -/
def opsResubmitFail : List Op :=
  [.setSource "data:image/jpeg;base64,AAA",
   .submit okProvider okShare,
   .submit (.throws "boom") okShare]

/-- A session state mid-transform: a source image is set and a transform is
outstanding (`isProcessing`). -/
def sProcessing : SessionState :=
  { initialState with image := some "data:image/jpeg;base64,AAA", isProcessing := true }

/-! ## Helper lemmas -/

theorem run_cons (s : SessionState) (op : Op) (ops : List Op) :
    run s (op :: ops) = run (step s op) ops := rfl

/-- A completed operation either leaves `shareId` untouched or carries a
successful share outcome. -/
theorem step_shareId (s : SessionState) (op : Op) :
    (step s op).shareId = s.shareId ∨ opWithGoodShare op = true := by
  cases op with
  | setSource img => exact .inl rfl
  | selectTheme j => exact .inl rfl
  | submit po so =>
    simp only [step, handleReimagine]
    split
    · cases po with
      | throws m => exact .inl rfl
      | responds parts =>
        cases parts with
        | none => exact .inl rfl
        | some ps =>
          cases hf : findInline ps with
          | none => simp [hf]
          | some d =>
            simp only [hf, applyShare]
            cases so with
            | throws => exact .inl rfl
            | responds i =>
              by_cases hi : truthy i = true
              · exact .inr (by simpa [opWithGoodShare, goodShare] using hi)
              · simp only [hi]
                exact .inl (by simp [Bool.not_eq_true] at hi; simp [hi])
    · exact .inl rfl
  | manualShare so =>
    simp only [step, handleShare]
    split
    · simp only [applyShare]
      cases so with
      | throws => exact .inl rfl
      | responds i =>
        by_cases hi : truthy i = true
        · exact .inr (by simpa [opWithGoodShare, goodShare] using hi)
        · simp only [hi]
          exact .inl (by simp [Bool.not_eq_true] at hi; simp [hi])
    · exact .inl rfl

/-- If a run ends with a populated `shareId`, either it was populated at the
start or some operation of the run carried a successful share outcome. -/
theorem run_shareId (ops : List Op) : ∀ s : SessionState,
    (run s ops).shareId ≠ none →
    s.shareId ≠ none ∨ ∃ op ∈ ops, opWithGoodShare op = true := by
  induction ops with
  | nil => exact fun s h => .inl h
  | cons op ops ih =>
    intro s h
    rw [run_cons] at h
    rcases ih (step s op) h with h1 | ⟨o, ho, hg⟩
    · rcases step_shareId s op with he | hg
      · exact .inl (he ▸ h1)
      · exact .inr ⟨op, List.mem_cons_self op ops, hg⟩
    · exact .inr ⟨o, List.mem_cons_of_mem op ho, hg⟩

/-- Mutual exclusion of `resultImage` and `error` is preserved by any
completed operation that is not a submit from a `Ready` (resultImage-bearing)
state. -/
theorem step_mutex (s : SessionState) (op : Op)
    (hm : s.resultImage = none ∨ s.error = none)
    (hg : ∀ po so, op = Op.submit po so → s.resultImage = none) :
    (step s op).resultImage = none ∨ (step s op).error = none := by
  cases op with
  | setSource img => exact .inl rfl
  | selectTheme j => exact hm
  | submit po so =>
    have hri : s.resultImage = none := hg po so rfl
    simp only [step, handleReimagine]
    split
    · cases po with
      | throws m => exact .inl hri
      | responds parts =>
        cases parts with
        | none => exact .inl hri
        | some ps =>
          cases hf : findInline ps with
          | none => simp [hf, hri]
          | some d =>
            simp only [hf, applyShare]
            cases so with
            | throws => exact .inr rfl
            | responds i =>
              by_cases hi : truthy i = true <;> simp [hi]
    · exact hm
  | manualShare so =>
    simp only [step, handleShare]
    split
    · simp only [applyShare]
      cases so with
      | throws => exact hm
      | responds i =>
        by_cases hi : truthy i = true <;> simp [hi] <;> exact hm
    · exact hm

/-- Mutual exclusion holds along any run whose submits all start from
resultImage-free states. -/
theorem run_mutex (ops : List Op) : ∀ s : SessionState,
    (s.resultImage = none ∨ s.error = none) →
    submitsGuarded s ops = true →
    (run s ops).resultImage = none ∨ (run s ops).error = none := by
  induction ops with
  | nil => exact fun s hm _ => hm
  | cons op ops ih =>
    intro s hm hsg
    rw [run_cons]
    simp only [submitsGuarded, Bool.and_eq_true] at hsg
    refine ih (step s op) (step_mutex s op hm ?_) hsg.2
    intro po so hop
    subst hop
    simpa [Option.isNone_iff_eq_none] using hsg.1

/-! ## Further fixtures -/

/-- setSource followed by a successful submit with successful auto-share. -/
def opsShareOk : List Op :=
  [.setSource "data:image/jpeg;base64,AAA", .submit okProvider okShare]

/-- setSource followed by a single failing submit (no resubmit from Ready). -/
def opsGuarded : List Op :=
  [.setSource "data:image/jpeg;base64,AAA", .submit (.throws "boom") okShare]

/-- The state right after the first upload of a fresh session. -/
def sUploaded : SessionState := setSource initialState "data:image/jpeg;base64,AAA"

/-- A provider response part carrying no inline data (text-only part). -/
def noInlinePart : Part := { inlineData := none }

/-! ## Claims -/

/-- Claim C1 is false on the code: `handleFileChange`/`onDrop` clear
`resultImage` and `error` but not `shareId`, so after a successful
transform-and-share followed by a new `setSource` the session has a
non-empty `shareId` and an absent `resultImage`, in a reachable state. -/
theorem claim1_counterexample :
    ¬ (∀ s : SessionState, Reachable s → s.shareId ≠ none → s.resultImage ≠ none) := by
  intro h
  have hr := h (run initialState opsStaleShare) ⟨opsStaleShare, rfl⟩ (by decide)
  exact hr (by decide)

/-- Claim C1 (amended): in every state reachable by completed operations, a
non-empty `shareId` implies that some operation of the run carried a share
call that returned a non-empty id (i.e. a share succeeded earlier); the
`resultImage` it was minted for may since have been cleared by `setSource`,
which leaves `shareId` intact. -/
theorem claim1_shareId_requires_successful_share (ops : List Op)
    (h : (run initialState ops).shareId ≠ none) :
    ∃ op ∈ ops, opWithGoodShare op = true := by
  rcases run_shareId ops initialState h with h1 | h2
  · exact absurd rfl h1
  · exact h2

theorem claim1_witness :
    (run initialState opsShareOk).shareId ≠ none ∧
    ∃ op ∈ opsShareOk, opWithGoodShare op = true :=
  ⟨by decide, claim1_shareId_requires_successful_share opsShareOk (by decide)⟩

/-- Claim C2 is false on the code: `setSource` does not clear `shareId`.
Starting from the reachable post-share state, a new `setSource` leaves the
old share id in place. -/
theorem claim2_counterexample :
    ¬ (∀ (s : SessionState) (img : String), (setSource s img).shareId = none) := by
  intro h
  have h2 := h (run initialState opsShareOk) "data:image/jpeg;base64,BBB"
  exact absurd h2 (by decide)

/-- Claim C2 (amended): `setSource(image)` replaces `sourceImage` with the
new payload and clears `resultImage` and `error`, on every invocation; it
leaves `shareId` (and the remaining cells) unchanged rather than clearing
it. -/
theorem claim2_setSource_effect (s : SessionState) (img : String) :
    (setSource s img).image = some img ∧
    (setSource s img).resultImage = none ∧
    (setSource s img).error = none ∧
    (setSource s img).shareId = s.shareId ∧
    (setSource s img).isProcessing = s.isProcessing ∧
    (setSource s img).isSharing = s.isSharing ∧
    (setSource s img).selectedJob = s.selectedJob :=
  ⟨rfl, rfl, rfl, rfl, rfl, rfl, rfl⟩

/-- Claim C3 is false on the code: `handleReimagine` never clears
`resultImage`, so a failing submit invoked after an earlier success leaves
the stale `resultImage` and the new `error` present simultaneously, in a
reachable state. -/
theorem claim3_counterexample :
    ¬ (∀ s : SessionState, Reachable s → (s.resultImage = none ∨ s.error = none)) := by
  intro h
  rcases h (run initialState opsResubmitFail) ⟨opsResubmitFail, rfl⟩ with h1 | h1 <;>
    exact absurd h1 (by decide)

/-- Claim C3 (amended): `resultImage` and `error` are mutually exclusive in
every state reached by a run in which submit/retry is only ever invoked from
states with no `resultImage` (fresh uploads and `Failed` retries); a failing
resubmit from `Ready` instead leaves both the stale `resultImage` and the
new `error` set. -/
theorem claim3_mutex_under_guarded_submits (ops : List Op)
    (h : submitsGuarded initialState ops = true) :
    (run initialState ops).resultImage = none ∨ (run initialState ops).error = none :=
  run_mutex ops initialState (.inl rfl) h

theorem claim3_witness :
    submitsGuarded initialState opsGuarded = true ∧
    ((run initialState opsGuarded).resultImage = none ∨
      (run initialState opsGuarded).error = none) :=
  ⟨by decide, claim3_mutex_under_guarded_submits opsGuarded (by decide)⟩

/-- Claim C4 is false on the code: `handleReimagine` only guards on
`if (!image) return` and never consults `isProcessing`, so invoking it from
a Processing state with a source image present issues a provider call and
mutates the session rather than being a no-op. -/
theorem claim4_counterexample :
    sProcessing.isProcessing = true ∧
    submitProviderCalls sProcessing = 1 ∧
    handleReimagine sProcessing (.throws "boom") okShare ≠ sProcessing := by
  refine ⟨rfl, by decide, ?_⟩
  decide

/-- Claim C4 (amended): submit is a no-op (state unchanged, no provider
call) exactly when `sourceImage` is absent or empty; whenever `sourceImage`
is truthy a provider call is issued regardless of `isProcessing` — the
duplicate-transform guard lives only in the caller's disabled trigger, not
in the state machine. -/
theorem claim4_submit_guard (s : SessionState) (po : ProviderOutcome) (so : ShareOutcome) :
    (truthy s.image = false → handleReimagine s po so = s ∧ submitProviderCalls s = 0) ∧
    (truthy s.image = true → submitProviderCalls s = 1) := by
  constructor
  · intro h
    constructor
    · simp [handleReimagine, h]
    · simp [submitProviderCalls, h]
  · intro h
    simp [submitProviderCalls, h]

theorem claim4_witness :
    (handleReimagine initialState (.throws "boom") okShare = initialState ∧
      submitProviderCalls initialState = 0) ∧
    submitProviderCalls sProcessing = 1 :=
  ⟨(claim4_submit_guard initialState (.throws "boom") okShare).1 (by decide),
   (claim4_submit_guard sProcessing (.throws "boom") okShare).2 (by decide)⟩

/-- Claim C5: when the transform succeeds but the chained auto-share fails
(fetch/json throws, or the response carries no truthy id, as with an error
response), the session keeps the fresh `resultImage`, `shareId` stays
absent, `error` stays absent, and the processing flag is reset — the failure
is swallowed by the inner catch and never escapes. -/
theorem claim5_autoshare_failure_keeps_ready (s : SessionState) (parts : List Part)
    (d : InlineData) (so : ShareOutcome)
    (himg : truthy s.image = true) (hfind : findInline parts = some d)
    (hshare : goodShare so = false) (hsid : s.shareId = none) :
    (handleReimagine s (.responds (some parts)) so).resultImage =
      some ("data:image/png;base64," ++ d.data) ∧
    (handleReimagine s (.responds (some parts)) so).shareId = none ∧
    (handleReimagine s (.responds (some parts)) so).error = none ∧
    (handleReimagine s (.responds (some parts)) so).isProcessing = false := by
  simp only [handleReimagine, himg, if_true, hfind]
  cases so with
  | throws => simp [applyShare, hsid]
  | responds i =>
    have hi : truthy i = false := by simpa [goodShare] using hshare
    simp [applyShare, hi, hsid]

theorem claim5_witness :
    (handleReimagine sUploaded (.responds (some [partD])) .throws).resultImage =
      some ("data:image/png;base64," ++ "QUJD") ∧
    (handleReimagine sUploaded (.responds (some [partD])) .throws).shareId = none ∧
    (handleReimagine sUploaded (.responds (some [partD])) .throws).error = none ∧
    (handleReimagine sUploaded (.responds (some [partD])) .throws).isProcessing = false :=
  claim5_autoshare_failure_keeps_ready sUploaded [partD]
    { data := "QUJD", mimeType := "image/webp" } .throws
    (by decide) (by decide) (by decide) (by decide)

/-- Claim C6: put-then-get round trip.  A `POST /api/share` with a non-empty
payload inserts it under the freshly generated id and answers `{id}`; the
subsequent `GET /share/:id` lookup with that id returns the stored payload
byte-identical (the data-URI string, embedded MIME marker included, is
interpolated unmodified into the viewer page).  Freshness of the uuid is the
hypothesis `storeGet st fid = none`. -/
theorem claim6_roundtrip (st : Store) (img fid : String)
    (himg : img ≠ "") (_hfresh : storeGet st fid = none) :
    postShare st (some img) fid = (storePut st fid img, CreateResult.ok fid) ∧
    storeGet (storePut st fid img) fid = some img ∧
    getShare (storePut st fid img) fid = ReadResult.page img := by
  refine ⟨by simp [postShare, himg], ?_, ?_⟩
  · simp [storePut, storeGet]
  · simp [getShare, storePut, storeGet]

theorem claim6_witness :
    postShare [] (some "data:image/png;base64,QUJD") "id-1" =
      (storePut [] "id-1" "data:image/png;base64,QUJD", CreateResult.ok "id-1") ∧
    storeGet (storePut [] "id-1" "data:image/png;base64,QUJD") "id-1" =
      some "data:image/png;base64,QUJD" ∧
    getShare (storePut [] "id-1" "data:image/png;base64,QUJD") "id-1" =
      ReadResult.page "data:image/png;base64,QUJD" :=
  claim6_roundtrip [] "data:image/png;base64,QUJD" "id-1" (by decide) (by decide)

/-- Claim C7: `POST /api/share` with no `image` field and with `image` equal
to the empty string both hit the `if (!image)` guard: the response is the
400 branch and the store is returned unchanged — no write is performed in
either case. -/
theorem claim7_create_rejects_missing_or_empty (st : Store) (fid : String) :
    postShare st none fid = (st, CreateResult.badRequest) ∧
    postShare st (some "") fid = (st, CreateResult.badRequest) :=
  ⟨rfl, by simp [postShare]⟩

/-- Claim C8: on a fresh session, after `setSource` and a submit whose
provider response contains no inline-image part, the session is Failed with
exactly the "didn\x27t return an image" message (exhibited as a substring by
explicit decomposition), `resultImage` stays absent, no share POST is
issued, and processing is reset. -/
theorem claim8_no_image_fails_cleanly (img : String) (parts : List Part)
    (so : ShareOutcome) (himg : img ≠ "") (hfind : findInline parts = none) :
    (handleReimagine (setSource initialState img) (.responds (some parts)) so).error =
      some noImageMsg ∧
    (∃ pre post : String, noImageMsg = pre ++ "didn\x27t return an image" ++ post) ∧
    (handleReimagine (setSource initialState img) (.responds (some parts)) so).resultImage =
      none ∧
    submitShareCalls (setSource initialState img) (.responds (some parts)) = 0 ∧
    (handleReimagine (setSource initialState img) (.responds (some parts)) so).isProcessing =
      false := by
  have ht : truthy (setSource initialState img).image = true := by
    simp [setSource, truthy, himg]
  refine ⟨?_, ⟨"The AI ", ". Please try again.", by decide⟩, ?_, ?_, ?_⟩
  · simp [handleReimagine, ht, hfind]
  · simp [handleReimagine, ht, hfind, setSource, truthy, himg]
  · simp [submitShareCalls, ht, hfind]
  · simp [handleReimagine, ht, hfind]

theorem claim8_witness :
    (handleReimagine (setSource initialState "data:image/jpeg;base64,AAA")
        (.responds (some [noInlinePart])) okShare).error = some noImageMsg ∧
    (∃ pre post : String, noImageMsg = pre ++ "didn\x27t return an image" ++ post) ∧
    (handleReimagine (setSource initialState "data:image/jpeg;base64,AAA")
        (.responds (some [noInlinePart])) okShare).resultImage = none ∧
    submitShareCalls (setSource initialState "data:image/jpeg;base64,AAA")
        (.responds (some [noInlinePart])) = 0 ∧
    (handleReimagine (setSource initialState "data:image/jpeg;base64,AAA")
        (.responds (some [noInlinePart])) okShare).isProcessing = false :=
  claim8_no_image_fails_cleanly "data:image/jpeg;base64,AAA" [noInlinePart] okShare
    (by decide) (by decide)

/-- Claim C9: whenever the `if (!image) return` guard passes, every exit
path of `handleReimagine` — success, no-image throw, provider throw, with
any auto-share outcome — runs the `finally` block, so the invocation ends
with the processing flag false; the session is never left stuck in
Processing. -/
theorem claim9_processing_reset (s : SessionState) (po : ProviderOutcome)
    (so : ShareOutcome) (h : truthy s.image = true) :
    (handleReimagine s po so).isProcessing = false := by
  simp only [handleReimagine, h, if_true]
  cases po with
  | throws m => rfl
  | responds parts =>
    cases parts with
    | none => rfl
    | some ps =>
      cases hf : findInline ps with
      | none => simp [hf]
      | some d => simp [hf]

theorem claim9_witness : (handleReimagine sUploaded okProvider okShare).isProcessing = false :=
  claim9_processing_reset sUploaded okProvider okShare (by decide)

/-- Claim C10: the success branch builds the result as the literal string
concatenation of the hardcoded marker `data:image/png;base64,` with the
provider's base64 data, for every MIME type `mime` the provider reports for
the inline part — the reported MIME type is ignored. -/
theorem claim10_png_hardcoded (s : SessionState) (dat mime : String)
    (rest : List Part) (so : ShareOutcome) (himg : truthy s.image = true) :
    (handleReimagine s
        (.responds (some ({ inlineData := some { data := dat, mimeType := mime } } :: rest)))
        so).resultImage = some ("data:image/png;base64," ++ dat) := by
  simp only [handleReimagine, himg, if_true, findInline]
  cases so with
  | throws => rfl
  | responds i => by_cases hi : truthy i = true <;> simp [applyShare, hi]

theorem claim10_witness :
    (handleReimagine sUploaded
        (.responds (some
          [({ inlineData := some { data := "QUJD", mimeType := "image/webp" } } : Part)]))
        okShare).resultImage = some ("data:image/png;base64," ++ "QUJD") := by
  have h := claim10_png_hardcoded sUploaded "QUJD" "image/webp" [] okShare (by decide)
  simpa using h

end ReimagineFuture
